import Mathlib

/-!
Verification development for the DesignBench benchmarking CLI.

The Go sources are shallowly embedded: Go strings become lists of
characters, the float64 fields of the metrics records become exact
rationals (every numeric literal handled by the parsers under study is
a short decimal, for which float64 arithmetic is exact in the ranges
involved), fallible Go functions returning (T, error) become Except
values, and each external command invocation (adb, xcrun) is an input
supplied through an environment record, since the repository never
inspects anything but the captured text output of those commands.
-/

namespace DesignBench

/-- Go strings are modelled as lists of characters. -/
abbrev GoStr := List Char

/-- Coercion from Lean string literals into the Go string model. -/
def goStr (s : String) : GoStr := s.data

/-- Model of the character class recognised by unicode.IsSpace for the
ASCII range, as used by strings.TrimSpace and strings.Fields. -/
def isGoSpace (c : Char) : Bool :=
  c = ' ' || c = '\t' || c = '\n' || c = Char.ofNat 11 || c = Char.ofNat 12 || c = '\r'

/-- Model of strings.TrimSpace (ASCII whitespace; the dumps handled by
the repository are ASCII command output). -/
def goTrimSpace (s : GoStr) : GoStr :=
  ((s.dropWhile isGoSpace).reverse.dropWhile isGoSpace).reverse

/-- Accumulator pass for goFields. -/
def fieldsAux : GoStr → GoStr → List GoStr
  | [], acc => if acc = [] then [] else [acc.reverse]
  | c :: r, acc =>
    if isGoSpace c then
      if acc = [] then fieldsAux r [] else acc.reverse :: fieldsAux r []
    else fieldsAux r (c :: acc)

/-- Model of strings.Fields: split around maximal runs of whitespace. -/
def goFields (s : GoStr) : List GoStr := fieldsAux s []

/-- Strip one trailing carriage return, as bufio.ScanLines does. -/
def dropCR (s : GoStr) : GoStr :=
  if s.getLast? = some '\r' then s.dropLast else s

/-- Accumulator pass for splitLines. -/
def splitLinesAux : GoStr → GoStr → List GoStr
  | [], acc => [acc.reverse]
  | '\n' :: r, acc => acc.reverse :: splitLinesAux r []
  | c :: r, acc => splitLinesAux r (c :: acc)

/-- Model of a bufio.Scanner with the default ScanLines split function:
newline-terminated lines, final unterminated line kept, a trailing
carriage return removed from each line, empty input yielding no lines.
The 64KiB token limit of the scanner is not modelled. -/
def splitLines (s : GoStr) : List GoStr :=
  if s = [] then []
  else
    let ls := splitLinesAux s []
    (if s.getLast? = some '\n' then ls.dropLast else ls).map dropCR

/-- Model of strings.Contains. -/
def goContains : GoStr → GoStr → Bool
  | [], sub => sub.isEmpty
  | c :: r, sub => sub.isPrefixOf (c :: r) || goContains r sub

/-- Model of strings.TrimSuffix. -/
def goTrimSuffix (s suf : GoStr) : GoStr :=
  if suf.isSuffixOf s ∧ suf ≠ [] then s.take (s.length - suf.length) else s

/-- Accumulator pass for splitFirst. -/
def splitFirstAux (sep : Char) : GoStr → GoStr → Option (GoStr × GoStr)
  | [], _ => none
  | c :: r, acc => if c = sep then some (acc.reverse, r) else splitFirstAux sep r (c :: acc)

/-- Split a string at the first occurrence of a separator character;
models both strings.SplitN (s, sep, 2) and strings.Index followed by
slicing, for the single-character separators the repository uses. -/
def splitFirst (sep : Char) (s : GoStr) : Option (GoStr × GoStr) := splitFirstAux sep s []

/-- Accumulator pass for splitAllChar. -/
def splitAllAux (sep : Char) : GoStr → GoStr → List GoStr
  | [], acc => [acc.reverse]
  | c :: r, acc =>
    if c = sep then acc.reverse :: splitAllAux sep r []
    else splitAllAux sep r (c :: acc)

/-- Model of strings.Split for a single-character separator. -/
def splitAllChar (sep : Char) (s : GoStr) : List GoStr := splitAllAux sep s []

/-- Model of strings.ToUpper (ASCII). -/
def goToUpper (s : GoStr) : GoStr := s.map Char.toUpper

/-- Model of strings.ToLower (ASCII). -/
def goToLower (s : GoStr) : GoStr := s.map Char.toLower

/-- Model of strings.EqualFold (ASCII folding). -/
def goEqualFold (a b : GoStr) : Bool := goToLower a == goToLower b

/-- Model of strings.Join. -/
def goJoin (sep : GoStr) : List GoStr → GoStr
  | [] => []
  | [x] => x
  | x :: y :: xs => x ++ sep ++ goJoin sep (y :: xs)

/-- Value of a list of decimal digit characters. -/
def digitsToNat (l : GoStr) : Nat := l.foldl (fun a c => a * 10 + (c.toNat - 48)) 0

/-- First success of an option-valued function over a list, modelling
the pervasive scan-and-return-on-first-hit loops of the sources. -/
def firstSome {α β : Type} (f : α → Option β) : List α → Option β
  | [] => none
  | x :: xs =>
    match f x with
    | some v => some v
    | none => firstSome f xs

/-- Model of strconv.ParseFloat for the decimal syntax: optional sign,
digits with an optional fractional part, optional decimal exponent, the
whole string consumed. The value is represented exactly as a rational;
the special forms (Inf, NaN, hexadecimal floats, digit-separating
underscores) that never occur in the diagnostic output under study are
not modelled, and rounding to binary is not modelled (all concrete
inputs in this development are exactly representable). -/
def parseGoFloat (s : GoStr) : Option ℚ :=
  let sgn : ℚ := match s with
    | '-' :: _ => -1
    | _ => 1
  let s1 : GoStr := match s with
    | '+' :: r => r
    | '-' :: r => r
    | r => r
  let ip := s1.takeWhile Char.isDigit
  let s2 := s1.dropWhile Char.isDigit
  let fp : GoStr := match s2 with
    | '.' :: r => r.takeWhile Char.isDigit
    | _ => []
  let s3 : GoStr := match s2 with
    | '.' :: r => r.dropWhile Char.isDigit
    | r => r
  if ip = [] ∧ fp = [] then none
  else
    let mant : ℚ := (digitsToNat (ip ++ fp) : ℚ) / (10 : ℚ) ^ fp.length
    match s3 with
    | [] => some (sgn * mant)
    | c :: r =>
      if c = 'e' ∨ c = 'E' then
        let esgn : ℤ := match r with
          | '-' :: _ => -1
          | _ => 1
        let r1 : GoStr := match r with
          | '+' :: t => t
          | '-' :: t => t
          | t => t
        let ed := r1.takeWhile Char.isDigit
        if ed = [] ∨ r1.dropWhile Char.isDigit ≠ [] then none
        else some (sgn * mant * (10 : ℚ) ^ (esgn * (digitsToNat ed : ℤ)))
      else none

/-- Model of strconv.Atoi: optional sign and a nonempty digit string
consuming the whole input (64-bit overflow is not modelled; the pids
the repository parses are small). -/
def parseGoInt (s : GoStr) : Option ℤ :=
  match s with
  | '+' :: r => if r ≠ [] ∧ r.all Char.isDigit then some (digitsToNat r : ℤ) else none
  | '-' :: r => if r ≠ [] ∧ r.all Char.isDigit then some (-(digitsToNat r : ℤ)) else none
  | r => if r ≠ [] ∧ r.all Char.isDigit then some (digitsToNat r : ℤ) else none

/-! Data model of pkg/report/report.go. Timestamps are modelled as
abstract tick counts (the repository only stores and serializes them). -/

/-- Embedding of report.DeviceMetadata. -/
@[ext]
structure DeviceMetadata where
  id : GoStr := []
  model : GoStr := []
  osVersion : GoStr := []
  platform : GoStr := []
  resolution : GoStr := []
  deriving DecidableEq

/-- Embedding of report.AndroidMetrics; float64 fields are exact
rationals, with the Go zero value 0 standing for an unset field. -/
@[ext]
structure AndroidMetrics where
  component : GoStr := []
  activity : GoStr := []
  package : GoStr := []
  benchmarkComponent : GoStr := []
  firstFrameMs : ℚ := 0
  totalTimeMs : ℚ := 0
  waitTimeMs : ℚ := 0
  memoryMB : ℚ := 0
  cpuPercent : ℚ := 0
  cpuTimeMs : ℚ := 0
  launchState : GoStr := []
  device : Option DeviceMetadata := none
  command : GoStr := []
  timestamp : Nat := 0
  deriving DecidableEq

/-- Embedding of report.IOSMetrics. -/
@[ext]
structure IOSMetrics where
  component : GoStr := []
  bundleID : GoStr := []
  launchArgs : List GoStr := []
  benchmarkComponent : GoStr := []
  renderTimeMs : ℚ := 0
  memoryMB : ℚ := 0
  cpuPercent : ℚ := 0
  cpuTimeMs : ℚ := 0
  device : Option DeviceMetadata := none
  command : GoStr := []
  timestamp : Nat := 0
  deriving DecidableEq

/-- Embedding of report.Result. -/
@[ext]
structure Result where
  component : GoStr := []
  android : Option AndroidMetrics := none
  ios : Option IOSMetrics := none
  cliCommand : GoStr := []
  deriving DecidableEq

namespace Android

/-- Embedding of android.Config (the Timeout field only bounds the
external process and is not part of the pure computation). -/
structure Config where
  component : GoStr := []
  package : GoStr := []
  activity : GoStr := []
  deviceID : GoStr := []
  adbPath : GoStr := []
  launchArgs : List GoStr := []
  benchmarkComponent : GoStr := []

/-- Captured outputs of the external adb invocations made during one
android.Run; each field is the combined output or the failure of the
corresponding command. -/
structure Env where
  launchOut : Except GoStr GoStr
  modelOut : Except GoStr GoStr
  osOut : Except GoStr GoStr
  resolutionOut : Except GoStr GoStr
  meminfoOut : Except GoStr GoStr
  pidofOut : Except GoStr GoStr
  psOut : Except GoStr GoStr
  topOut : Except GoStr GoStr
  cpuinfoOut : Except GoStr GoStr
  procStatOut : Except GoStr GoStr
  now : Nat

/-- Embedding of android.normalizeActivity. -/
def normalizeActivity (pkgName activity : GoStr) : GoStr :=
  if activity = [] then activity
  else if (goStr ".").isPrefixOf activity then activity
  else if pkgName ≠ [] ∧ (pkgName ++ goStr ".").isPrefixOf activity then
    activity.drop pkgName.length
  else activity

/-- Embedding of android.buildComponentArg. -/
def buildComponentArg (pkgName activity : GoStr) : GoStr :=
  if goContains activity (goStr "/") then activity
  else pkgName ++ goStr "/" ++ normalizeActivity pkgName activity

/-- One iteration of the line loop of android.parseLaunchOutput. -/
def launchStep (m : AndroidMetrics) (line : GoStr) : AndroidMetrics :=
  let t := goTrimSpace line
  if t = [] then m
  else
    match splitFirst ':' t with
    | none => m
    | some (k, v) =>
      let key := goTrimSpace k
      let value := goTrimSpace v
      if key = goStr "ThisTime" then
        match parseGoFloat value with
        | some q => { m with firstFrameMs := q }
        | none => m
      else if key = goStr "TotalTime" then
        match parseGoFloat value with
        | some q => { m with totalTimeMs := q }
        | none => m
      else if key = goStr "WaitTime" then
        match parseGoFloat value with
        | some q => { m with waitTimeMs := q }
        | none => m
      else if key = goStr "LaunchState" then { m with launchState := value }
      else m

/-- Embedding of android.parseLaunchOutput. -/
def parseLaunchOutput (output : GoStr) : AndroidMetrics :=
  (splitLines output).foldl launchStep {}

/-- Value a best-effort probe contributes to the metadata record: the
trimmed output on success, the field left at its empty zero value on
failure, as in the err-equals-nil pattern of android.fetchDeviceMetadata. -/
def probeValue : Except GoStr GoStr → GoStr
  | .ok s => goTrimSpace s
  | .error _ => []

/-- Embedding of android.fetchDeviceMetadata; the three getprop / wm
probes are supplied as captured outcomes. -/
def fetchDeviceMetadata (deviceID : GoStr)
    (modelOut osOut resolutionOut : Except GoStr GoStr) : Option DeviceMetadata :=
  let meta : DeviceMetadata := {
    id := deviceID
    platform := goStr "android"
    model := probeValue modelOut
    osVersion := probeValue osOut
    resolution := probeValue resolutionOut }
  if meta.model = [] ∧ meta.osVersion = [] ∧ meta.resolution = [] ∧ meta.id = [] then none
  else some meta

/-- Numeric value of one whitespace-separated field of a TOTAL line,
after stripping a kB / KB / kb suffix, as in android.parseMeminfoForMB. -/
def meminfoField (field : GoStr) : Option ℚ :=
  parseGoFloat (goTrimSuffix (goTrimSuffix (goTrimSuffix field (goStr "kB")) (goStr "KB")) (goStr "kb"))

/-- Kilobyte figure extracted from one TOTAL line of dumpsys output:
drop everything through the first colon, then take the first field that
parses, divided by 1024, as in android.parseMeminfoForMB. -/
def meminfoExtract (line : GoStr) : Option ℚ :=
  let rest := match splitFirst ':' line with
    | some p => p.2
    | none => line
  (firstSome meminfoField (goFields rest)).map (· / 1024)

/-- Test applied by android.parseMeminfoForMB to each trimmed line. -/
def isTotalLine (t : GoStr) : Bool :=
  (goStr "TOTAL PSS").isPrefixOf (goToUpper t) || (goStr "TOTAL").isPrefixOf (goToUpper t)

/-- Line loop of android.parseMeminfoForMB. -/
def parseMeminfoLines : List GoStr → Except GoStr ℚ
  | [] => .error (goStr "unable to locate TOTAL memory usage in dumpsys output")
  | l :: rest =>
    let t := goTrimSpace l
    if t = [] then parseMeminfoLines rest
    else if isTotalLine t then
      match meminfoExtract t with
      | some v => .ok v
      | none => parseMeminfoLines rest
    else parseMeminfoLines rest

/-- Embedding of android.parseMeminfoForMB. -/
def parseMeminfoForMB (output : GoStr) : Except GoStr ℚ :=
  parseMeminfoLines (splitLines output)

/-- Embedding of android.collectMemoryUsage over the captured dumpsys
meminfo outcome. -/
def collectMemoryUsage (packageName : GoStr) (dump : Except GoStr GoStr) : Except GoStr ℚ :=
  if packageName = [] then .error (goStr "package name required for memory collection")
  else
    match dump with
    | .error e => .error (goStr "dumpsys meminfo: " ++ e)
    | .ok out => parseMeminfoForMB out

/-- Pid candidate offered by one line of the ps fallback scan of
android.resolveAndroidPID. -/
def psLinePID (packageName line : GoStr) : Option GoStr :=
  if !goContains line packageName then none
  else
    let fields := goFields line
    if fields.length < 2 then none
    else
      let pid := fields.headD []
      if (parseGoInt pid).isSome then some pid else none

/-- Embedding of android.resolveAndroidPID over the captured pidof and
ps outcomes. -/
def resolveAndroidPID (packageName : GoStr)
    (pidofOut psOut : Except GoStr GoStr) : Except GoStr GoStr :=
  let direct : Option GoStr :=
    match pidofOut with
    | .ok out =>
      let pid := goTrimSpace out
      if pid ≠ [] then some ((goFields pid).headD []) else none
    | .error _ => none
  match direct with
  | some pid => .ok pid
  | none =>
    match psOut with
    | .error psErr =>
      match pidofOut with
      | .error e => .error (goStr "pid lookup failed: " ++ e ++ goStr "; " ++ psErr)
      | .ok _ => .error psErr
    | .ok ps => match firstSome (psLinePID packageName) (splitLines ps) with
      | some pid => .ok pid
      | none => .error (goStr "process for " ++ packageName ++ goStr " not found")

/-- Percent figure offered by one line of android.parseAndroidTopCPU. -/
def topLineValue (pid line : GoStr) : Option ℚ :=
  let t := goTrimSpace line
  if t = [] then none
  else
    match goFields t with
    | [] => none
    | f0 :: rest =>
      if f0 ≠ pid then none
      else firstSome (fun field =>
        if goContains field (goStr "%") then parseGoFloat (goTrimSuffix field (goStr "%"))
        else none) rest

/-- Embedding of android.parseAndroidTopCPU. -/
def parseAndroidTopCPU (output pid : GoStr) : Except GoStr ℚ :=
  match firstSome (topLineValue pid) (splitLines output) with
  | some v => .ok v
  | none => .error (goStr "pid not present in top output")

/-- Percent figure offered by one line of android.parseDumpsysCPU. -/
def dumpsysCPULine (packageName line : GoStr) : Option ℚ :=
  let t := goTrimSpace line
  if t = [] || !goContains t packageName then none
  else
    match goFields t with
    | [] => none
    | f0 :: _ => parseGoFloat (goTrimSuffix f0 (goStr "%"))

/-- Embedding of android.parseDumpsysCPU. -/
def parseDumpsysCPU (output packageName : GoStr) : Except GoStr ℚ :=
  match firstSome (dumpsysCPULine packageName) (splitLines output) with
  | some v => .ok v
  | none => .error (goStr "package not present in cpuinfo output")

/-- Embedding of android.androidCPUPercent over the captured top and
dumpsys cpuinfo outcomes. -/
def androidCPUPercent (pid packageName : GoStr)
    (topOut cpuinfoOut : Except GoStr GoStr) : Except GoStr ℚ :=
  let fromTop : Option ℚ :=
    match topOut with
    | .ok out => (parseAndroidTopCPU out pid).toOption
    | .error _ => none
  match fromTop with
  | some v => .ok v
  | none =>
    match cpuinfoOut with
    | .error e => .error e
    | .ok ci => parseDumpsysCPU ci packageName

/-- Embedding of the clockTicksPerSecond constant. -/
def clockTicksPerSecond : ℚ := 100

/-- Field extraction of android.androidCPUTime applied to the captured
content of the /proc pid stat pseudo-file. -/
def androidCPUTimeOfStat (out : GoStr) : Except GoStr ℚ :=
  let fields := goFields out
  if fields.length < 16 then .error (goStr "unexpected /proc stat format")
  else
    match parseGoFloat (fields.getD 13 []) with
    | none => .error (goStr "invalid utime field")
    | some utime =>
      match parseGoFloat (fields.getD 14 []) with
      | none => .error (goStr "invalid stime field")
      | some stime => .ok ((utime + stime) / clockTicksPerSecond * 1000)

/-- Embedding of android.androidCPUTime over the captured cat outcome. -/
def androidCPUTime (procStatOut : Except GoStr GoStr) : Except GoStr ℚ :=
  match procStatOut with
  | .error e => .error (goStr "read proc stat: " ++ e)
  | .ok out => androidCPUTimeOfStat out

/-- Embedding of android.collectCPUMetrics: percent and cumulative time
are independent, the step fails only when both fail, and a failed half
contributes its zero value. -/
def collectCPUMetrics (packageName : GoStr)
    (pidofOut psOut topOut cpuinfoOut procStatOut : Except GoStr GoStr) :
    Except GoStr (ℚ × ℚ) :=
  match resolveAndroidPID packageName pidofOut psOut with
  | .error e => .error e
  | .ok pid =>
    let pr := androidCPUPercent pid packageName topOut cpuinfoOut
    let tr := androidCPUTime procStatOut
    match pr, tr with
    | .error pe, .error te =>
      .error (goStr "cpu metrics unavailable: " ++ pe ++ goStr "; " ++ te)
    | _, _ => .ok (pr.toOption.getD 0, tr.toOption.getD 0)

/-- Embedding of android.Run over the captured outcomes of its external
commands. -/
def Run (cfg : Config) (env : Env) : Except GoStr AndroidMetrics :=
  if cfg.package = [] then .error (goStr "android package name is required")
  else if cfg.activity = [] then .error (goStr "android activity is required")
  else
    let component := if cfg.component = [] then cfg.activity else cfg.component
    let adb := if cfg.adbPath = [] then goStr "adb" else cfg.adbPath
    let componentArg := buildComponentArg cfg.package cfg.activity
    let args :=
      (if cfg.deviceID = [] then [] else [goStr "-s", cfg.deviceID]) ++
      [goStr "shell", goStr "am", goStr "start", goStr "-W", componentArg] ++
      (if cfg.benchmarkComponent = [] then []
       else [goStr "-e", goStr "designbench_component", cfg.benchmarkComponent]) ++
      cfg.launchArgs
    match env.launchOut with
    | .error e => .error (goStr "run adb: " ++ e)
    | .ok out =>
      let m1 := { parseLaunchOutput out with
        component := component
        activity := cfg.activity
        package := cfg.package
        benchmarkComponent := cfg.benchmarkComponent
        command := adb ++ goStr " " ++ goJoin (goStr " ") args
        timestamp := env.now
        device := fetchDeviceMetadata cfg.deviceID env.modelOut env.osOut env.resolutionOut }
      let m2 := match collectMemoryUsage cfg.package env.meminfoOut with
        | .ok v => { m1 with memoryMB := v }
        | .error _ => m1
      let m3 := match collectCPUMetrics cfg.package env.pidofOut env.psOut
          env.topOut env.cpuinfoOut env.procStatOut with
        | .ok pt =>
          { m2 with
            cpuPercent := if pt.1 > 0 then pt.1 else m2.cpuPercent
            cpuTimeMs := if pt.2 > 0 then pt.2 else m2.cpuTimeMs }
        | .error _ => m2
      .ok m3

end Android

namespace IOS

/-- Embedding of ios.simctlDevice (fields decoded from the simctl JSON
listing). -/
structure SimctlDevice where
  udid : GoStr := []
  name : GoStr := []
  state : GoStr := []
  deviceTypeIdentifier : GoStr := []
  runtime : GoStr := []
  isAvailable : Bool := false
  availabilityError : GoStr := []
  deriving DecidableEq

/-- Embedding of ios.Config. -/
structure Config where
  component : GoStr := []
  bundleID : GoStr := []
  deviceID : GoStr := []
  launchArgs : List GoStr := []
  xcrunPath : GoStr := []
  benchmarkComponent : GoStr := []

/-- Captured outcomes of the external xcrun invocations made during one
ios.Run. The simulator listing is supplied already JSON-decoded (the
runtime-keyed device map of the simctl payload, as an association
list); decoding failures and command failures both arrive as the error
case, exactly as listSimctlDevices folds them into one error return. -/
structure Env where
  listPayload : Except GoStr (List (GoStr × List SimctlDevice))
  launchOut : Except GoStr GoStr
  elapsedMs : ℚ
  memOut : Except GoStr GoStr
  launchctlOut : Except GoStr GoStr
  psOut : Except GoStr GoStr
  now : Nat

/-- Map assignment on the udid-keyed association list that models the
Go map built by ios.listSimctlDevices. -/
def upsert (m : List (GoStr × SimctlDevice)) (k : GoStr) (v : SimctlDevice) :
    List (GoStr × SimctlDevice) :=
  match m with
  | [] => [(k, v)]
  | (k2, v2) :: r => if k2 = k then (k, v) :: r else (k2, v2) :: upsert r k v

/-- Lookup in the udid-keyed association list. -/
def mapLookup (m : List (GoStr × SimctlDevice)) (k : GoStr) : Option SimctlDevice :=
  match m with
  | [] => none
  | (k2, v) :: r => if k2 = k then some v else mapLookup r k

/-- Flattening loop of ios.listSimctlDevices: stamp each device with its
runtime key and index the result by udid. Go iterates its maps in an
unspecified order; this model fixes the payload order, which none of
the verified claims depend on. -/
def flattenDevices (payload : List (GoStr × List SimctlDevice)) :
    List (GoStr × SimctlDevice) :=
  payload.foldl
    (fun acc p => p.2.foldl (fun acc2 d => upsert acc2 d.udid { d with runtime := p.1 }) acc)
    []

/-- Embedding of ios.listSimctlDevices over the captured listing. -/
def listSimctlDevices (listPayload : Except GoStr (List (GoStr × List SimctlDevice))) :
    Except GoStr (List (GoStr × SimctlDevice)) :=
  listPayload.map flattenDevices

/-- Capitalization fallback of ios.runtimeToVersion for runtime names
other than the three special-cased ones. -/
def capitalizeASCII (s : GoStr) : GoStr :=
  match goToLower s with
  | [] => []
  | c :: r => Char.toUpper c :: r

/-- Embedding of ios.runtimeToVersion. -/
def runtimeToVersion (runtime : GoStr) : GoStr :=
  let p := goStr "com.apple.CoreSimulator.SimRuntime."
  let r1 := if p.isPrefixOf runtime then runtime.drop p.length else runtime
  let r2 := r1.map (fun c => if c = '_' then '-' else c)
  let parts := splitAllChar '-' r2
  if parts.length < 2 then goTrimSpace r2
  else
    match parts with
    | [] => goTrimSpace r2
    | nm :: rest =>
      let version := goJoin (goStr ".") rest
      let lower := goToLower nm
      let nm2 :=
        if lower = goStr "ios" then goStr "iOS"
        else if lower = goStr "ipados" then goStr "iPadOS"
        else if lower = goStr "tvos" then goStr "tvOS"
        else capitalizeASCII nm
      goTrimSpace (nm2 ++ goStr " " ++ version)

/-- Embedding of ios.simctlToMetadata. -/
def simctlToMetadata (device : SimctlDevice) : DeviceMetadata :=
  let meta : DeviceMetadata := {
    id := device.udid
    model := device.name
    platform := goStr "ios" }
  let meta := if device.runtime ≠ [] then { meta with osVersion := runtimeToVersion device.runtime } else meta
  if device.deviceTypeIdentifier ≠ [] then { meta with resolution := device.deviceTypeIdentifier } else meta

/-- Booted-state scan of ios.resolveDeviceMetadata. -/
def findBooted : List (GoStr × SimctlDevice) → Option SimctlDevice
  | [] => none
  | (_, d) :: r => if goEqualFold d.state (goStr "Booted") then some d else findBooted r

/-- Embedding of ios.resolveDeviceMetadata over the flattened listing
outcome. The option in the success value models the Go metadata
pointer, which the function never returns as nil on success. -/
def resolveDeviceMetadata (listing : Except GoStr (List (GoStr × SimctlDevice)))
    (requestedID : GoStr) : Except GoStr (Option DeviceMetadata) :=
  match listing with
  | .error e =>
    if requestedID = [] then .ok (some { platform := goStr "ios" })
    else .error e
  | .ok devices =>
    if requestedID ≠ [] then
      match mapLookup devices requestedID with
      | some dev => .ok (some (simctlToMetadata dev))
      | none => .ok (some { id := requestedID, platform := goStr "ios" })
    else
      match findBooted devices with
      | some dev => .ok (some (simctlToMetadata dev))
      | none => .ok (some { platform := goStr "ios" })

/-- Character class matched by the regexp escape backslash-s in the Go
regexp package (RE2). -/
def isRegexSpace (c : Char) : Bool :=
  c = ' ' || c = '\t' || c = '\n' || c = Char.ofNat 12 || c = '\r'

/-- Unit alternatives of the ios.sizePattern regular expression, in
their alternation order (the Go regexp engine prefers the earliest
alternative at a given starting position). -/
def sizeUnits : List GoStr :=
  [goStr "bytes", goStr "b", goStr "kb", goStr "kib", goStr "mb", goStr "mib",
   goStr "gb", goStr "gib"]

/-- First unit alternative that case-insensitively matches at the head
of the remaining text. -/
def matchUnit (s : GoStr) : Option GoStr :=
  firstSome (fun u => if u.isPrefixOf (goToLower s) then some u else none) sizeUnits

/-- Attempt of the ios.sizePattern match anchored at one position:
greedy digits, an optional dot-digits fragment, regexp whitespace, then
a unit alternative. No alternative begins with a digit, a dot or a
space, so the greedy scan never needs backtracking. -/
def matchSizeAt (s : GoStr) : Option (ℚ × GoStr) :=
  let ds := s.takeWhile Char.isDigit
  if ds = [] then none
  else
    let r1 := s.dropWhile Char.isDigit
    let fs : GoStr := match r1 with
      | '.' :: t => t.takeWhile Char.isDigit
      | _ => []
    let r2 : GoStr :=
      match r1 with
      | '.' :: t => if (t.takeWhile Char.isDigit) ≠ [] then t.dropWhile Char.isDigit else r1
      | _ => r1
    let r3 := r2.dropWhile isRegexSpace
    match matchUnit r3 with
    | none => none
    | some u =>
      (parseGoFloat (ds ++ (if fs = [] then [] else '.' :: fs))).map (fun v => (v, u))

/-- Leftmost match of ios.sizePattern in a line. -/
def findSizeMatch : GoStr → Option (ℚ × GoStr)
  | [] => none
  | c :: r =>
    match matchSizeAt (c :: r) with
    | some m => some m
    | none => findSizeMatch r

/-- Embedding of ios.parseSizeToMB: normalize the matched figure to
megabytes. The matched unit arrives already lowercased, as after the
strings.ToLower of the source. -/
def parseSizeToMB (line : GoStr) : Except GoStr ℚ :=
  match findSizeMatch line with
  | none => .error (goStr "size pattern not found")
  | some vu =>
    if vu.2 = goStr "bytes" ∨ vu.2 = goStr "b" then .ok (vu.1 / (1024 * 1024))
    else if vu.2 = goStr "kb" ∨ vu.2 = goStr "kib" then .ok (vu.1 / 1024)
    else if vu.2 = goStr "mb" ∨ vu.2 = goStr "mib" then .ok vu.1
    else if vu.2 = goStr "gb" ∨ vu.2 = goStr "gib" then .ok (vu.1 * 1024)
    else .error (goStr "unknown unit")

/-- Megabyte figure offered by one line of ios.parseIOSMemoryOutput. -/
def iosMemoryLine (line : GoStr) : Option ℚ :=
  let t := goTrimSpace line
  if t = [] then none
  else
    let lower := goToLower t
    if goContains lower (goStr "physical") ∧ goContains lower (goStr "footprint") then
      (parseSizeToMB t).toOption
    else none

/-- Embedding of ios.parseIOSMemoryOutput. -/
def parseIOSMemoryOutput (output : GoStr) : Except GoStr ℚ :=
  match firstSome iosMemoryLine (splitLines output) with
  | some v => .ok v
  | none => .error (goStr "physical footprint not found")

/-- Embedding of ios.collectMemoryUsage over the captured memory probe
outcome. -/
def collectMemoryUsage (bundleID : GoStr) (memOut : Except GoStr GoStr) : Except GoStr ℚ :=
  if bundleID = [] then .error (goStr "bundle id required for memory collection")
  else
    match memOut with
    | .error e => .error (goStr "memory_usage: " ++ e)
    | .ok out => parseIOSMemoryOutput out

/-- Pid candidate offered by one line of the launchctl scan of
ios.resolveIOSPID. -/
def launchctlLinePID (bundleID line : GoStr) : Option GoStr :=
  let t := goTrimSpace line
  if t = [] then none
  else
    let fields := goFields t
    if fields.length < 3 then none
    else
      let label := fields.getLastD []
      if !goContains label bundleID then none
      else
        let pid := fields.headD []
        if pid = goStr "-" then none
        else if (parseGoInt pid).isSome then some pid else none

/-- Embedding of ios.resolveIOSPID over the captured launchctl outcome. -/
def resolveIOSPID (bundleID : GoStr) (launchctlOut : Except GoStr GoStr) :
    Except GoStr GoStr :=
  match launchctlOut with
  | .error e => .error (goStr "launchctl list: " ++ e)
  | .ok out =>
    match firstSome (launchctlLinePID bundleID) (splitLines out) with
    | some pid => .ok pid
    | none => .error (goStr "process pid not found via launchctl")

/-- Embedding of ios.parseDarwinTime. -/
def parseDarwinTime (value : GoStr) : Except GoStr ℚ :=
  let dayCore : Except GoStr (ℚ × GoStr) :=
    if goContains value (goStr "-") then
      match splitFirst '-' value with
      | none => .error (goStr "invalid day time format")
      | some dc =>
        match parseGoFloat dc.1 with
        | none => .error (goStr "invalid day count")
        | some days => .ok (days * 24 * 3600, dc.2)
    else .ok (0, value)
  match dayCore with
  | .error e => .error e
  | .ok dsc =>
    match splitAllChar ':' dsc.2 with
    | [m, s] =>
      match parseGoFloat m, parseGoFloat s with
      | some minutes, some seconds => .ok ((minutes * 60 + seconds) * 1000 + dsc.1 * 1000)
      | _, _ => .error (goStr "invalid time component")
    | [h, m, s] =>
      match parseGoFloat h, parseGoFloat m, parseGoFloat s with
      | some hours, some minutes, some seconds =>
        .ok ((hours * 3600 + minutes * 60 + seconds) * 1000 + dsc.1 * 1000)
      | _, _, _ => .error (goStr "invalid time component")
    | _ => .error (goStr "unsupported time format")

/-- Line loop of ios.parseIOSPSMetrics: the first nonempty line is
consumed as the header, data lines must carry at least three fields and
open with the pid, and a malformed percent or time field on a matched
line fails the parse. -/
def psMetricsLines (pid : GoStr) : Bool → List GoStr → Except GoStr (ℚ × ℚ)
  | _, [] => .error (goStr "cpu metrics not found in ps output")
  | parsedHeader, l :: rest =>
    let t := goTrimSpace l
    if t = [] then psMetricsLines pid parsedHeader rest
    else if !parsedHeader then psMetricsLines pid true rest
    else
      let fields := goFields t
      if fields.length < 3 ∨ fields.headD [] ≠ pid then psMetricsLines pid true rest
      else
        match parseGoFloat (fields.getD 1 []) with
        | none => .error (goStr "invalid cpu percent field")
        | some cpuPercent =>
          match parseDarwinTime (fields.getD 2 []) with
          | .error e => .error e
          | .ok ms => .ok (cpuPercent, ms)

/-- Embedding of ios.parseIOSPSMetrics. -/
def parseIOSPSMetrics (output pid : GoStr) : Except GoStr (ℚ × ℚ) :=
  psMetricsLines pid false (splitLines output)

/-- Embedding of ios.iosProcessMetrics over the captured ps outcome. -/
def iosProcessMetrics (pid : GoStr) (psOut : Except GoStr GoStr) :
    Except GoStr (ℚ × ℚ) :=
  match psOut with
  | .error e => .error (goStr "ps metrics: " ++ e)
  | .ok out => parseIOSPSMetrics out pid

/-- Embedding of ios.collectIOSCPUMetrics. -/
def collectIOSCPUMetrics (bundleID : GoStr)
    (launchctlOut psOut : Except GoStr GoStr) : Except GoStr (ℚ × ℚ) :=
  match resolveIOSPID bundleID launchctlOut with
  | .error e => .error e
  | .ok pid => iosProcessMetrics pid psOut

/-- Embedding of ios.Run over the captured outcomes of its external
commands. -/
def Run (cfg : Config) (env : Env) : Except GoStr IOSMetrics :=
  if cfg.bundleID = [] then .error (goStr "ios bundle id is required")
  else
    let xcrun := if cfg.xcrunPath = [] then goStr "xcrun" else cfg.xcrunPath
    let component := if cfg.component = [] then cfg.bundleID else cfg.component
    match resolveDeviceMetadata (listSimctlDevices env.listPayload) cfg.deviceID with
    | .error e => .error e
    | .ok deviceMetadata =>
      let deviceID := (deviceMetadata.map DeviceMetadata.id).getD []
      if deviceID = [] then
        .error (goStr "no booted simulator found; provide --device to target a specific simulator or device")
      else
        let args := [goStr "simctl", goStr "launch", deviceID, cfg.bundleID] ++ cfg.launchArgs
        match env.launchOut with
        | .error e => .error (goStr "run xcrun: " ++ e)
        | .ok _ =>
          let m1 : IOSMetrics := {
            component := component
            bundleID := cfg.bundleID
            launchArgs := cfg.launchArgs
            benchmarkComponent := cfg.benchmarkComponent
            renderTimeMs := env.elapsedMs
            command := xcrun ++ goStr " " ++ goJoin (goStr " ") args
            timestamp := env.now
            device := deviceMetadata }
          let m2 := match collectMemoryUsage cfg.bundleID env.memOut with
            | .ok v => { m1 with memoryMB := v }
            | .error _ => m1
          let m3 := match collectIOSCPUMetrics cfg.bundleID env.launchctlOut env.psOut with
            | .ok pt =>
              { m2 with
                cpuPercent := if pt.1 > 0 then pt.1 else m2.cpuPercent
                cpuTimeMs := if pt.2 > 0 then pt.2 else m2.cpuTimeMs }
            | .error _ => m2
          .ok m3

end IOS

namespace Report

/-!
Model of the JSON form produced for a Result by encoding/json under the
struct tags of pkg/report/report.go, and of decoding that form back.
Numbers are carried exactly: Go emits float64 fields with the shortest
decimal that reparses to the same value, so a marshal and unmarshal of
a float64 is lossless, which the exact rational mirrors. Timestamps
round trip through RFC 3339 text with nanosecond precision; the model
carries the abstract tick count unchanged. Decoding follows
json.Unmarshal into a zero-valued struct: a missing key leaves the Go
zero value.
-/

/-- JSON value tree. -/
inductive Json where
  | str (s : GoStr)
  | num (q : ℚ)
  | time (n : Nat)
  | arr (xs : List Json)
  | obj (fields : List (GoStr × Json))

/-- Object member for a string field tagged omitempty. -/
def optStr (k v : GoStr) : List (GoStr × Json) :=
  if v = [] then [] else [(k, .str v)]

/-- Object member for a float64 field tagged omitempty. -/
def optNum (k : GoStr) (v : ℚ) : List (GoStr × Json) :=
  if v = 0 then [] else [(k, .num v)]

/-- Object member for a string-slice field tagged omitempty. -/
def optArr (k : GoStr) (v : List GoStr) : List (GoStr × Json) :=
  if v = [] then [] else [(k, .arr (v.map Json.str))]

/-- Object member for a pointer field tagged omitempty. -/
def optObj {α : Type} (k : GoStr) (f : α → Json) : Option α → List (GoStr × Json)
  | none => []
  | some a => [(k, f a)]

/-- Members of the JSON object for a DeviceMetadata, in struct order. -/
def encDeviceFields (d : DeviceMetadata) : List (GoStr × Json) :=
  optStr (goStr "id") d.id ++ optStr (goStr "model") d.model ++
  optStr (goStr "osVersion") d.osVersion ++ optStr (goStr "platform") d.platform ++
  optStr (goStr "resolution") d.resolution

/-- JSON encoding of a DeviceMetadata. -/
def encDevice (d : DeviceMetadata) : Json := .obj (encDeviceFields d)

/-- Members of the JSON object for an AndroidMetrics, in struct order. -/
def encAndroidFields (m : AndroidMetrics) : List (GoStr × Json) :=
  [(goStr "component", .str m.component), (goStr "activity", .str m.activity),
   (goStr "package", .str m.package)] ++
  optStr (goStr "benchmarkComponent") m.benchmarkComponent ++
  optNum (goStr "firstFrameMs") m.firstFrameMs ++
  optNum (goStr "totalTimeMs") m.totalTimeMs ++
  optNum (goStr "waitTimeMs") m.waitTimeMs ++
  optNum (goStr "memoryMb") m.memoryMB ++
  optNum (goStr "cpuPercent") m.cpuPercent ++
  optNum (goStr "cpuTimeMs") m.cpuTimeMs ++
  optStr (goStr "launchState") m.launchState ++
  optObj (goStr "device") encDevice m.device ++
  optStr (goStr "command") m.command ++
  [(goStr "timestamp", .time m.timestamp)]

/-- JSON encoding of an AndroidMetrics. -/
def encAndroid (m : AndroidMetrics) : Json := .obj (encAndroidFields m)

/-- Members of the JSON object for an IOSMetrics, in struct order. -/
def encIOSFields (m : IOSMetrics) : List (GoStr × Json) :=
  [(goStr "component", .str m.component), (goStr "bundleId", .str m.bundleID)] ++
  optArr (goStr "launchArgs") m.launchArgs ++
  optStr (goStr "benchmarkComponent") m.benchmarkComponent ++
  optNum (goStr "renderTimeMs") m.renderTimeMs ++
  optNum (goStr "memoryMb") m.memoryMB ++
  optNum (goStr "cpuPercent") m.cpuPercent ++
  optNum (goStr "cpuTimeMs") m.cpuTimeMs ++
  optObj (goStr "device") encDevice m.device ++
  optStr (goStr "command") m.command ++
  [(goStr "timestamp", .time m.timestamp)]

/-- JSON encoding of an IOSMetrics. -/
def encIOS (m : IOSMetrics) : Json := .obj (encIOSFields m)

/-- Members of the JSON object for a Result, in struct order. -/
def encResultFields (r : Result) : List (GoStr × Json) :=
  [(goStr "component", .str r.component)] ++
  optObj (goStr "android") encAndroid r.android ++
  optObj (goStr "ios") encIOS r.ios ++
  optStr (goStr "cliCommand") r.cliCommand

/-- JSON encoding of a Result, as written by report.SaveJSON. -/
def encResult (r : Result) : Json := .obj (encResultFields r)

/-- Key lookup in a JSON object. -/
def jlookup : List (GoStr × Json) → GoStr → Option Json
  | [], _ => none
  | kv :: r, key => if kv.1 = key then some kv.2 else jlookup r key

/-- Decoded string field: a missing key leaves the zero value. -/
def getStr (o : List (GoStr × Json)) (k : GoStr) : GoStr :=
  match jlookup o k with
  | some (.str s) => s
  | _ => []

/-- Decoded float64 field: a missing key leaves the zero value. -/
def getNum (o : List (GoStr × Json)) (k : GoStr) : ℚ :=
  match jlookup o k with
  | some (.num q) => q
  | _ => 0

/-- Decoded timestamp field: a missing key leaves the zero value. -/
def getTime (o : List (GoStr × Json)) (k : GoStr) : Nat :=
  match jlookup o k with
  | some (.time n) => n
  | _ => 0

/-- Decoded string-slice field: a missing key leaves the nil slice. -/
def getStrArr (o : List (GoStr × Json)) (k : GoStr) : List GoStr :=
  match jlookup o k with
  | some (.arr xs) => xs.map (fun j => match j with | .str s => s | _ => [])
  | _ => []

/-- Decoding of a DeviceMetadata object. -/
def decDevice : Json → Option DeviceMetadata
  | .obj o => some {
      id := getStr o (goStr "id")
      model := getStr o (goStr "model")
      osVersion := getStr o (goStr "osVersion")
      platform := getStr o (goStr "platform")
      resolution := getStr o (goStr "resolution") }
  | _ => none

/-- Decoding of an AndroidMetrics object. -/
def decAndroid : Json → Option AndroidMetrics
  | .obj o => some {
      component := getStr o (goStr "component")
      activity := getStr o (goStr "activity")
      package := getStr o (goStr "package")
      benchmarkComponent := getStr o (goStr "benchmarkComponent")
      firstFrameMs := getNum o (goStr "firstFrameMs")
      totalTimeMs := getNum o (goStr "totalTimeMs")
      waitTimeMs := getNum o (goStr "waitTimeMs")
      memoryMB := getNum o (goStr "memoryMb")
      cpuPercent := getNum o (goStr "cpuPercent")
      cpuTimeMs := getNum o (goStr "cpuTimeMs")
      launchState := getStr o (goStr "launchState")
      device := (jlookup o (goStr "device")).bind decDevice
      command := getStr o (goStr "command")
      timestamp := getTime o (goStr "timestamp") }
  | _ => none

/-- Decoding of an IOSMetrics object. -/
def decIOS : Json → Option IOSMetrics
  | .obj o => some {
      component := getStr o (goStr "component")
      bundleID := getStr o (goStr "bundleId")
      launchArgs := getStrArr o (goStr "launchArgs")
      benchmarkComponent := getStr o (goStr "benchmarkComponent")
      renderTimeMs := getNum o (goStr "renderTimeMs")
      memoryMB := getNum o (goStr "memoryMb")
      cpuPercent := getNum o (goStr "cpuPercent")
      cpuTimeMs := getNum o (goStr "cpuTimeMs")
      device := (jlookup o (goStr "device")).bind decDevice
      command := getStr o (goStr "command")
      timestamp := getTime o (goStr "timestamp") }
  | _ => none

/-- Decoding of a Result object, modelling json.Unmarshal into a fresh
zero-valued Result. -/
def decResult : Json → Result
  | .obj o => {
      component := getStr o (goStr "component")
      android := (jlookup o (goStr "android")).bind decAndroid
      ios := (jlookup o (goStr "ios")).bind decIOS
      cliCommand := getStr o (goStr "cliCommand") }
  | _ => {}

end Report

namespace Android

/-- Modelled from the claim wording for comparison with the code: a
memory parser that actually prefers a TOTAL PSS line over a plain
TOTAL line, scanning all lines for TOTAL PSS before falling back to
the general TOTAL scan. -/
def scanTotalLines (pred : GoStr → Bool) (lines : List GoStr) : Option ℚ :=
  firstSome (fun l =>
    let t := goTrimSpace l
    if pred t then meminfoExtract t else none) lines

/-- Claim-side meminfo parser with a genuine TOTAL PSS preference. -/
def parseMeminfoPreferPSS (output : GoStr) : Except GoStr ℚ :=
  let lines := splitLines output
  match scanTotalLines (fun t => (goStr "TOTAL PSS").isPrefixOf (goToUpper t)) lines with
  | some v => .ok v
  | none =>
    match scanTotalLines (fun t => (goStr "TOTAL").isPrefixOf (goToUpper t)) lines with
    | some v => .ok v
    | none => .error (goStr "unable to locate TOTAL memory usage in dumpsys output")

/-- Amended-claim meminfo parser: the first line whose trimmed label
begins case-insensitively with TOTAL and yields a parseable numeric
field wins, with no preference between TOTAL PSS and plain TOTAL. -/
def specMeminfoFirstTotal (output : GoStr) : Except GoStr ℚ :=
  match scanTotalLines isTotalLine (splitLines output) with
  | some v => .ok v
  | none => .error (goStr "unable to locate TOTAL memory usage in dumpsys output")

/-- Activity normalization as worded by the claim: keep an empty or
dot-led activity, turn an activity equal to the package, a dot and a
remainder into the dot-led remainder, and keep anything else. -/
def specNormalizeActivity (pkgName activity : GoStr) : GoStr :=
  if activity = [] then activity
  else if (goStr ".").isPrefixOf activity then activity
  else if (pkgName ++ goStr ".").isPrefixOf activity then
    '.' :: activity.drop (pkgName.length + 1)
  else activity

end Android

namespace IOS

/-- Core of the amended Darwin-time shape: a two-component MM colon SS
or three-component HH colon MM colon SS time, converted to
milliseconds. -/
def specDarwinCore (core : GoStr) : Except GoStr ℚ :=
  match splitAllChar ':' core with
  | [m, s] =>
    match parseGoFloat m, parseGoFloat s with
    | some minutes, some seconds => .ok ((minutes * 60 + seconds) * 1000)
    | _, _ => .error (goStr "invalid time component")
  | [h, m, s] =>
    match parseGoFloat h, parseGoFloat m, parseGoFloat s with
    | some hours, some minutes, some seconds =>
      .ok ((hours * 3600 + minutes * 60 + seconds) * 1000)
    | _, _, _ => .error (goStr "invalid time component")
  | _ => .error (goStr "unsupported time format")

/-- Amended-claim Darwin-time parser: an MM colon SS or HH colon MM
colon SS core, optionally preceded by a day count and a dash, each unit
converted to milliseconds and summed; any other shape is an error. -/
def specDarwinTime (value : GoStr) : Except GoStr ℚ :=
  match splitFirst '-' value with
  | some dc =>
    match parseGoFloat dc.1 with
    | none => .error (goStr "invalid day count")
    | some days => (specDarwinCore dc.2).map (fun ms => days * 86400000 + ms)
  | none => specDarwinCore value

end IOS

/-- Concrete Android configuration for witness runs. -/
def androidFixtureCfg : Android.Config :=
  { package := goStr "com.example.app", activity := goStr ".MainActivity" }

/-- Concrete Android environment whose launch succeeds and whose
optional probes all fail. -/
def androidFixtureEnv : Android.Env :=
  { launchOut := .ok (goStr "ThisTime: 8"), modelOut := .error [], osOut := .error [],
    resolutionOut := .error [], meminfoOut := .error [], pidofOut := .error [],
    psOut := .error [], topOut := .error [], cpuinfoOut := .error [],
    procStatOut := .error [], now := 7 }

/-- Concrete iOS configuration for witness runs. -/
def iosFixtureCfg : IOS.Config :=
  { bundleID := goStr "com.example.app", deviceID := goStr "UDID-1" }

/-- Concrete iOS environment whose launch succeeds and whose optional
probes all fail. -/
def iosFixtureEnv : IOS.Env :=
  { listPayload := .ok [], launchOut := .ok [], elapsedMs := 12, memOut := .error [],
    launchctlOut := .error [], psOut := .error [], now := 7 }

/-! Theorems. -/

theorem drop_of_dot_append (p a : GoStr) (h : (p ++ goStr ".").isPrefixOf a = true) :
    a.drop p.length = '.' :: a.drop (p.length + 1) := by
  obtain ⟨t, ht⟩ := List.isPrefixOf_iff_prefix.mp h
  have hdot : goStr "." ++ t = '.' :: t := rfl
  have hL : a.drop p.length = '.' :: t := by
    rw [← ht, List.append_assoc, hdot, List.drop_left]
  have hR : a.drop (p.length + 1) = t := by
    have hlen : p.length + 1 = (p ++ goStr ".").length := by simp [goStr]
    rw [← ht, hlen, List.drop_left]
  rw [hL, hR]

theorem normalizeActivity_eq_spec (p a : GoStr) :
    Android.normalizeActivity p a = Android.specNormalizeActivity p a := by
  unfold Android.normalizeActivity Android.specNormalizeActivity
  by_cases ha : a = []
  · simp [ha]
  · by_cases hd : (goStr ".").isPrefixOf a = true
    · simp [ha, hd]
    · by_cases hp : p = []
      · have hnil : ((p ++ goStr ".").isPrefixOf a) = ((goStr ".").isPrefixOf a) := by
          rw [hp]; rfl
        simp [ha, hd, hp, hnil]
      · by_cases hpre : (p ++ goStr ".").isPrefixOf a = true
        · simp only [ha, hd, hp, hpre, ne_eq, not_false_iff, true_and, if_false, if_true,
            Bool.false_eq_true]
          simp [hd, hpre, drop_of_dot_append p a hpre]
        · simp [ha, hd, hp, hpre]

/-- Claim C10: the am start component argument uses a slash-containing
activity verbatim; otherwise it joins the package name, a slash and the
normalized activity, where normalization keeps an empty or dot-led
activity unchanged, turns an activity equal to the package followed by
a dot and a remainder into the dot-led remainder, and keeps any other
activity unchanged. -/
theorem c10_component_arg (p a : GoStr) :
    Android.buildComponentArg p a =
      if goContains a (goStr "/") then a
      else p ++ goStr "/" ++ Android.specNormalizeActivity p a := by
  by_cases h : goContains a (goStr "/") = true <;>
    simp [Android.buildComponentArg, h, normalizeActivity_eq_spec]

/-- Claim C6: for proc stat content with at least sixteen
whitespace-separated fields whose fourteenth and fifteenth fields parse
as numbers, the CPU-time parser returns their sum divided by the fixed
one hundred ticks per second, times one thousand milliseconds; the
concrete stat line of the spec yields 1500 ms. -/
theorem c6_android_cpu_time :
    (∀ (out : GoStr) (u s : ℚ),
        16 ≤ (goFields out).length →
        parseGoFloat ((goFields out).getD 13 []) = some u →
        parseGoFloat ((goFields out).getD 14 []) = some s →
        Android.androidCPUTimeOfStat out = .ok ((u + s) / 100 * 1000)) ∧
    Android.androidCPUTimeOfStat
      (goStr "4242 (mock) S 0 0 0 0 0 0 0 0 0 0 100 50 0 0 0 0 0 0 0 0 0 0 0 0") =
      .ok 1500 := by
  constructor
  · intro out u s hlen hu hs
    unfold Android.androidCPUTimeOfStat
    rw [if_neg (by omega), hu, hs]
    simp [Android.clockTicksPerSecond]
  · simp +decide [Android.androidCPUTimeOfStat, Android.clockTicksPerSecond, goFields,
      fieldsAux, isGoSpace, parseGoFloat, digitsToNat, goStr] <;> norm_num

/-- Witness for claim C6 at the concrete stat line of the spec. -/
theorem c6_android_cpu_time_witness :
    Android.androidCPUTimeOfStat
      (goStr "4242 (mock) S 0 0 0 0 0 0 0 0 0 0 100 50 0 0 0 0 0 0 0 0 0 0 0 0") =
      .ok ((100 + 50) / 100 * 1000) :=
  c6_android_cpu_time.1 _ 100 50 (by decide)
    (by simp +decide [parseGoFloat, digitsToNat, goFields, fieldsAux, isGoSpace, goStr] <;>
      norm_num)
    (by simp +decide [parseGoFloat, digitsToNat, goFields, fieldsAux, isGoSpace, goStr] <;>
      norm_num)

theorem splitFirst_nil (sep : Char) : splitFirst sep [] = none := rfl

/-- Claim C5: the launch-timing parser maps key colon value lines so
that ThisTime sets the first-frame field, TotalTime the total field,
WaitTime the wait field and LaunchState the state string, leaves the
record unchanged on an unrecognized key or a malformed numeric value,
and on the concrete am start output of the spec yields 8, 12, 14 and
COLD. The parser is a total function, so no input can make it raise. -/
theorem c5_launch_timing :
    (∀ (m : AndroidMetrics) (line k v : GoStr) (q : ℚ),
        splitFirst ':' (goTrimSpace line) = some (k, v) →
        goTrimSpace k = goStr "ThisTime" →
        parseGoFloat (goTrimSpace v) = some q →
        Android.launchStep m line = { m with firstFrameMs := q }) ∧
    (∀ (m : AndroidMetrics) (line k v : GoStr) (q : ℚ),
        splitFirst ':' (goTrimSpace line) = some (k, v) →
        goTrimSpace k = goStr "TotalTime" →
        parseGoFloat (goTrimSpace v) = some q →
        Android.launchStep m line = { m with totalTimeMs := q }) ∧
    (∀ (m : AndroidMetrics) (line k v : GoStr) (q : ℚ),
        splitFirst ':' (goTrimSpace line) = some (k, v) →
        goTrimSpace k = goStr "WaitTime" →
        parseGoFloat (goTrimSpace v) = some q →
        Android.launchStep m line = { m with waitTimeMs := q }) ∧
    (∀ (m : AndroidMetrics) (line k v : GoStr),
        splitFirst ':' (goTrimSpace line) = some (k, v) →
        goTrimSpace k = goStr "LaunchState" →
        Android.launchStep m line = { m with launchState := goTrimSpace v }) ∧
    (∀ (m : AndroidMetrics) (line k v : GoStr),
        splitFirst ':' (goTrimSpace line) = some (k, v) →
        goTrimSpace k ≠ goStr "ThisTime" →
        goTrimSpace k ≠ goStr "TotalTime" →
        goTrimSpace k ≠ goStr "WaitTime" →
        goTrimSpace k ≠ goStr "LaunchState" →
        Android.launchStep m line = m) ∧
    (∀ (m : AndroidMetrics) (line k v : GoStr),
        splitFirst ':' (goTrimSpace line) = some (k, v) →
        (goTrimSpace k = goStr "ThisTime" ∨ goTrimSpace k = goStr "TotalTime" ∨
          goTrimSpace k = goStr "WaitTime") →
        parseGoFloat (goTrimSpace v) = none →
        Android.launchStep m line = m) ∧
    ((Android.parseLaunchOutput
        (goStr "ThisTime: 8\nTotalTime: 12\nWaitTime: 14\nLaunchState: COLD")).firstFrameMs = 8 ∧
     (Android.parseLaunchOutput
        (goStr "ThisTime: 8\nTotalTime: 12\nWaitTime: 14\nLaunchState: COLD")).totalTimeMs = 12 ∧
     (Android.parseLaunchOutput
        (goStr "ThisTime: 8\nTotalTime: 12\nWaitTime: 14\nLaunchState: COLD")).waitTimeMs = 14 ∧
     (Android.parseLaunchOutput
        (goStr "ThisTime: 8\nTotalTime: 12\nWaitTime: 14\nLaunchState: COLD")).launchState =
       goStr "COLD") := by
  refine ⟨?_, ?_, ?_, ?_, ?_, ?_, ?_⟩
  · intro m line k v q hsp hk hq
    have ht : goTrimSpace line ≠ [] := by
      intro h0
      rw [h0, splitFirst_nil] at hsp
      exact Option.noConfusion hsp
    simp +decide [Android.launchStep, ht, hsp, hk, hq]
  · intro m line k v q hsp hk hq
    have ht : goTrimSpace line ≠ [] := by
      intro h0
      rw [h0, splitFirst_nil] at hsp
      exact Option.noConfusion hsp
    simp +decide [Android.launchStep, ht, hsp, hk, hq]
  · intro m line k v q hsp hk hq
    have ht : goTrimSpace line ≠ [] := by
      intro h0
      rw [h0, splitFirst_nil] at hsp
      exact Option.noConfusion hsp
    simp +decide [Android.launchStep, ht, hsp, hk, hq]
  · intro m line k v hsp hk
    have ht : goTrimSpace line ≠ [] := by
      intro h0
      rw [h0, splitFirst_nil] at hsp
      exact Option.noConfusion hsp
    simp +decide [Android.launchStep, ht, hsp, hk]
  · intro m line k v hsp hk1 hk2 hk3 hk4
    have ht : goTrimSpace line ≠ [] := by
      intro h0
      rw [h0, splitFirst_nil] at hsp
      exact Option.noConfusion hsp
    simp [Android.launchStep, ht, hsp, hk1, hk2, hk3, hk4]
  · intro m line k v hsp hk hq
    have ht : goTrimSpace line ≠ [] := by
      intro h0
      rw [h0, splitFirst_nil] at hsp
      exact Option.noConfusion hsp
    rcases hk with hk | hk | hk <;> simp +decide [Android.launchStep, ht, hsp, hk, hq]
  · refine ⟨?_, ?_, ?_, ?_⟩ <;>
      (simp +decide [Android.parseLaunchOutput, Android.launchStep, splitLines, splitLinesAux,
        dropCR, goTrimSpace, isGoSpace, splitFirst, splitFirstAux, parseGoFloat, digitsToNat,
        goStr] <;> norm_num)

/-- Witness for claim C5 on concrete launch lines: a well-formed
ThisTime line sets the first-frame field, a malformed one leaves the
record unchanged. -/
theorem c5_launch_timing_witness :
    Android.launchStep {} (goStr "ThisTime: 8") =
      { ({} : AndroidMetrics) with firstFrameMs := 8 } ∧
    Android.launchStep {} (goStr "ThisTime: banana") = ({} : AndroidMetrics) :=
  ⟨c5_launch_timing.1 {} (goStr "ThisTime: 8") (goStr "ThisTime") (goStr " 8") 8
      (by decide) (by decide)
      (by simp +decide [parseGoFloat, digitsToNat, goTrimSpace, isGoSpace, goStr] <;> norm_num),
   c5_launch_timing.2.2.2.2.2.1 {} (goStr "ThisTime: banana") (goStr "ThisTime")
      (goStr " banana") (by decide) (Or.inl (by decide)) (by decide)⟩

theorem parseMeminfoLines_eq_scan (ls : List GoStr) :
    Android.parseMeminfoLines ls =
      match Android.scanTotalLines Android.isTotalLine ls with
      | some v => Except.ok v
      | none => Except.error (goStr "unable to locate TOTAL memory usage in dumpsys output") := by
  induction ls with
  | nil => rfl
  | cons l rest ih =>
    simp only [Android.parseMeminfoLines, Android.scanTotalLines, firstSome] at ih ⊢
    by_cases ht : goTrimSpace l = []
    · have htot : Android.isTotalLine [] = false := rfl
      simp [ht, htot, ih]
    · by_cases htot : Android.isTotalLine (goTrimSpace l) = true
      · cases hex : Android.meminfoExtract (goTrimSpace l) with
        | none => simp [ht, htot, hex, ih]
        | some v => simp [ht, htot, hex]
      · simp [ht, htot, ih]

/-- Claim C1 counterexample: the claim prefers a TOTAL PSS line over a
plain TOTAL line, but on a dump holding a plain TOTAL line of 1024 kB
before a TOTAL PSS line of 2048 kB the code returns the plain line, 1.0
MB, while a parser with the claimed preference returns 2.0 MB. -/
theorem c1_counterexample :
    Android.parseMeminfoForMB (goStr "TOTAL: 1024 kB\nTOTAL PSS: 2048 kB") = .ok 1 ∧
    Android.parseMeminfoPreferPSS (goStr "TOTAL: 1024 kB\nTOTAL PSS: 2048 kB") = .ok 2 := by
  constructor <;>
    (simp +decide [Android.parseMeminfoForMB, Android.parseMeminfoPreferPSS,
      Android.parseMeminfoLines, Android.scanTotalLines, Android.isTotalLine,
      Android.meminfoExtract, Android.meminfoField, splitLines, splitLinesAux, dropCR,
      goTrimSpace, isGoSpace, splitFirst, splitFirstAux, goFields, fieldsAux, goToUpper,
      goTrimSuffix, parseGoFloat, digitsToNat, firstSome, goStr] <;> norm_num)

/-- Claim C1 as amended: the memory parser returns from the first line,
in order, whose trimmed label begins case-insensitively with TOTAL and
yields a parseable numeric field, with no preference between TOTAL PSS
and plain TOTAL; extraction drops a leading colon-delimited prefix,
takes the first field parsing as a number after stripping a kB, KB or
kb suffix and divides by 1024, and the spec line TOTAL 4096 2048 yields
4.0 MB. -/
theorem c1_meminfo_first_total :
    (∀ out, Android.parseMeminfoForMB out = Android.specMeminfoFirstTotal out) ∧
    Android.parseMeminfoForMB (goStr "TOTAL  4096  2048") = .ok 4 := by
  constructor
  · intro out
    rw [Android.parseMeminfoForMB, Android.specMeminfoFirstTotal, parseMeminfoLines_eq_scan]
  · simp +decide [Android.parseMeminfoForMB, Android.parseMeminfoLines, Android.isTotalLine,
      Android.meminfoExtract, Android.meminfoField, splitLines, splitLinesAux, dropCR,
      goTrimSpace, isGoSpace, splitFirst, splitFirstAux, goFields, fieldsAux, goToUpper,
      goTrimSuffix, parseGoFloat, digitsToNat, firstSome, goStr] <;> norm_num

theorem splitFirstAux_isSome_eq (sep : Char) (s : GoStr) : ∀ acc,
    (splitFirstAux sep s acc).isSome = goContains s [sep] := by
  induction s with
  | nil => intro acc; simp [splitFirstAux, goContains]
  | cons c r ih =>
    intro acc
    by_cases hc : c = sep
    · simp [splitFirstAux, goContains, hc, List.isPrefixOf]
    · have hc2 : ¬(sep = c) := fun h => hc h.symm
      simp [splitFirstAux, goContains, hc, ih, List.isPrefixOf, hc2]

/-- Claim C7 counterexample: the claim admits only the shapes MM:SS,
HH:MM:SS and D-HH:MM:SS and rejects anything else, but the day-prefixed
two-component shape D-MM:SS is accepted: 1-02:03 parses to one day plus
two minutes and three seconds, 86523000 ms, instead of an error. -/
theorem c7_counterexample :
    IOS.parseDarwinTime (goStr "1-02:03") = .ok 86523000 := by
  simp +decide [IOS.parseDarwinTime, goContains, splitFirst, splitFirstAux, splitAllChar,
    splitAllAux, parseGoFloat, digitsToNat, goStr] <;> norm_num

/-- Claim C7 as amended: the Darwin-time parser accepts an MM:SS or
HH:MM:SS core, each optionally preceded by a day count and a dash,
converting days, hours, minutes and seconds fully to milliseconds and
summing, and rejects any other colon structure with an error; for
1-02:03:04 it yields 93784000 ms. -/
theorem c7_darwin_time_shapes :
    (∀ v, IOS.parseDarwinTime v = IOS.specDarwinTime v) ∧
    IOS.parseDarwinTime (goStr "1-02:03:04") = .ok 93784000 := by
  constructor
  · intro v
    cases hdc : splitFirst '-' v with
    | none =>
      have hc : goContains v (goStr "-") = false := by
        have h := splitFirstAux_isSome_eq '-' v []
        rw [show splitFirstAux '-' v [] = splitFirst '-' v from rfl, hdc] at h
        exact h.symm
      simp only [IOS.parseDarwinTime, IOS.specDarwinTime, IOS.specDarwinCore, hc, hdc,
        Bool.false_eq_true, if_false]
      rcases hsp : splitAllChar ':' v with _ | ⟨p1, _ | ⟨p2, _ | ⟨p3, _ | ⟨p4, t⟩⟩⟩⟩ <;>
        simp only []
      · cases parseGoFloat p1 <;> cases parseGoFloat p2 <;> simp <;> ring
      · cases parseGoFloat p1 <;> cases parseGoFloat p2 <;> cases parseGoFloat p3 <;>
          simp <;> ring
    | some dc =>
      have hc : goContains v (goStr "-") = true := by
        have h := splitFirstAux_isSome_eq '-' v []
        rw [show splitFirstAux '-' v [] = splitFirst '-' v from rfl, hdc] at h
        exact h.symm
      simp only [IOS.parseDarwinTime, IOS.specDarwinTime, IOS.specDarwinCore, hc, hdc, if_true]
      cases hdf : parseGoFloat dc.1 with
      | none => rfl
      | some days =>
        simp only []
        rcases hsp : splitAllChar ':' dc.2 with _ | ⟨p1, _ | ⟨p2, _ | ⟨p3, _ | ⟨p4, t⟩⟩⟩⟩ <;>
          simp only []
        · rfl
        · rfl
        · cases parseGoFloat p1 <;> cases parseGoFloat p2 <;> simp [Except.map] <;> ring
        · cases parseGoFloat p1 <;> cases parseGoFloat p2 <;> cases parseGoFloat p3 <;>
            simp [Except.map] <;> ring
        · rfl
  · simp +decide [IOS.parseDarwinTime, goContains, splitFirst, splitFirstAux, splitAllChar,
      splitAllAux, parseGoFloat, digitsToNat, goStr] <;> norm_num

/-- Claim C2: when the simulator listing fails and no device id was
requested, the iOS metadata resolution degrades to an empty record
carrying only the platform tag instead of propagating the listing
error; the run consequently does not fail with the listing error but
only later, with the fixed no-booted-simulator message. -/
theorem c2_listing_failure_degrades :
    (∀ e, IOS.resolveDeviceMetadata (.error e) [] =
        .ok (some { platform := goStr "ios" })) ∧
    (∀ (cfg : IOS.Config) (env : IOS.Env) (e : GoStr),
        cfg.bundleID ≠ [] → cfg.deviceID = [] → env.listPayload = .error e →
        IOS.Run cfg env = .error
          (goStr "no booted simulator found; provide --device to target a specific simulator or device")) := by
  constructor
  · intro e; rfl
  · intro cfg env e hb hd hl
    simp [IOS.Run, hb, hd, hl, IOS.listSimctlDevices, IOS.resolveDeviceMetadata, Except.map]

/-- Witness for claim C2 with a concrete failing listing and no
requested device id. -/
theorem c2_listing_failure_degrades_witness :
    IOS.Run { bundleID := goStr "com.example.app" }
      { listPayload := .error (goStr "simctl exploded"), launchOut := .ok [], elapsedMs := 0,
        memOut := .error [], launchctlOut := .error [], psOut := .error [], now := 0 } =
      .error
        (goStr "no booted simulator found; provide --device to target a specific simulator or device") :=
  c2_listing_failure_degrades.2 _ _ (goStr "simctl exploded") (by decide) rfl rfl

/-- Claim C3 counterexample: with a successful but empty simulator
listing and no requested id, every probed identity field of the
resolved iOS record is empty, yet the builder returns a present record
rather than the absent one the claim requires of both builders. -/
theorem c3_counterexample :
    IOS.resolveDeviceMetadata (.ok []) [] =
      .ok (some
        { id := [], model := [], osVersion := [], platform := goStr "ios", resolution := [] }) ∧
    some
      ({ id := [], model := [], osVersion := [], platform := goStr "ios", resolution := [] } :
        DeviceMetadata) ≠ none := ⟨rfl, by simp⟩

theorem simctlToMetadata_platform (dev : IOS.SimctlDevice) :
    (IOS.simctlToMetadata dev).platform = goStr "ios" := by
  unfold IOS.simctlToMetadata
  by_cases h1 : dev.runtime ≠ [] <;> by_cases h2 : dev.deviceTypeIdentifier ≠ [] <;>
    simp [h1, h2]

/-- Claim C3 as amended: the Android metadata builder collapses to the
absent record exactly when the requested id and all three probed fields
are empty, while the iOS builder never collapses on success: every
successful resolution returns a present record whose platform field is
ios, and in particular an empty listing with no requested id yields the
present record carrying only the platform tag, all probed identity
fields empty. -/
theorem c3_empty_metadata_collapse :
    (∀ (deviceID : GoStr) (mo oo ro : Except GoStr GoStr),
        Android.fetchDeviceMetadata deviceID mo oo ro = none ↔
          Android.probeValue mo = [] ∧ Android.probeValue oo = [] ∧
          Android.probeValue ro = [] ∧ deviceID = []) ∧
    (∀ (listing : Except GoStr (List (GoStr × IOS.SimctlDevice))) (requestedID : GoStr)
        (meta : Option DeviceMetadata),
        IOS.resolveDeviceMetadata listing requestedID = .ok meta →
        ∃ d, meta = some d ∧ d.platform = goStr "ios") ∧
    IOS.resolveDeviceMetadata (.ok []) [] = .ok (some { platform := goStr "ios" }) := by
  refine ⟨?_, ?_, rfl⟩
  · intro deviceID mo oo ro
    unfold Android.fetchDeviceMetadata
    constructor
    · intro h
      by_cases hc : Android.probeValue mo = [] ∧ Android.probeValue oo = [] ∧
          Android.probeValue ro = [] ∧ deviceID = []
      · exact hc
      · simp [hc] at h
    · intro hc
      simp [hc.1, hc.2.1, hc.2.2.1, hc.2.2.2]
  · intro listing requestedID meta hres
    unfold IOS.resolveDeviceMetadata at hres
    cases listing with
    | error e =>
      simp only [] at hres
      by_cases hr : requestedID = []
      · rw [if_pos hr] at hres
        exact ⟨{ platform := goStr "ios" }, (Except.ok.inj hres).symm, rfl⟩
      · rw [if_neg hr] at hres
        exact absurd hres (by simp)
    | ok devices =>
      simp only [] at hres
      by_cases hr : requestedID ≠ []
      · rw [if_pos hr] at hres
        cases hl : IOS.mapLookup devices requestedID with
        | some dev =>
          rw [hl] at hres
          exact ⟨IOS.simctlToMetadata dev, (Except.ok.inj hres).symm,
            simctlToMetadata_platform dev⟩
        | none =>
          rw [hl] at hres
          exact ⟨{ id := requestedID, platform := goStr "ios" }, (Except.ok.inj hres).symm, rfl⟩
      · rw [if_neg hr] at hres
        cases hb : IOS.findBooted devices with
        | some dev =>
          rw [hb] at hres
          exact ⟨IOS.simctlToMetadata dev, (Except.ok.inj hres).symm,
            simctlToMetadata_platform dev⟩
        | none =>
          rw [hb] at hres
          exact ⟨{ platform := goStr "ios" }, (Except.ok.inj hres).symm, rfl⟩

/-- Witness for claim C3 at concrete inputs: the Android builder with
an empty id and every probe failed collapses to the absent record, and
a successful iOS resolution on an empty listing with no requested id is
a present record with platform ios. -/
theorem c3_empty_metadata_collapse_witness :
    Android.fetchDeviceMetadata [] (.error []) (.error []) (.error []) = none ∧
    (∃ d, (some ({ platform := goStr "ios" } : DeviceMetadata)) = some d ∧
      d.platform = goStr "ios") :=
  ⟨(c3_empty_metadata_collapse.1 [] (.error []) (.error []) (.error [])).mpr
      ⟨rfl, rfl, rfl, rfl⟩,
   c3_empty_metadata_collapse.2.1 (.ok []) [] (some { platform := goStr "ios" }) rfl⟩

theorem firstSome_eq_none {α β : Type} (f : α → Option β) (ls : List α)
    (h : ∀ x ∈ ls, f x = none) : firstSome f ls = none := by
  induction ls with
  | nil => rfl
  | cons x rest ih =>
    have hx := h x (by simp)
    simp [firstSome, hx, ih (fun y hy => h y (by simp [hy]))]

theorem parseMeminfoLines_all_miss (ls : List GoStr)
    (h : ∀ l ∈ ls, Android.isTotalLine (goTrimSpace l) = false) :
    Android.parseMeminfoLines ls =
      .error (goStr "unable to locate TOTAL memory usage in dumpsys output") := by
  induction ls with
  | nil => rfl
  | cons l rest ih =>
    have hl := h l (by simp)
    have hrest := ih (fun x hx => h x (by simp [hx]))
    by_cases ht : goTrimSpace l = [] <;>
      simp [Android.parseMeminfoLines, ht, hl, hrest]

theorem psMetricsLines_all_miss (pid : GoStr) (ls : List GoStr)
    (h : ∀ l ∈ ls, (goFields (goTrimSpace l)).length < 3 ∨
      (goFields (goTrimSpace l)).headD [] ≠ pid) :
    ∀ b, IOS.psMetricsLines pid b ls = .error (goStr "cpu metrics not found in ps output") := by
  induction ls with
  | nil => intro b; rfl
  | cons l rest ih =>
    intro b
    have hl := h l (by simp)
    have hrest := ih (fun x hx => h x (by simp [hx]))
    by_cases ht : goTrimSpace l = []
    · cases b <;> simp [IOS.psMetricsLines, ht, hrest]
    · cases b with
      | false => simp [IOS.psMetricsLines, ht, hrest]
      | true =>
        simp only [IOS.psMetricsLines]
        rw [if_neg ht]
        simp only [Bool.not_true, Bool.false_eq_true, if_false]
        rw [if_pos hl]
        exact hrest true

/-- Claim C8: an input missing the expected marker makes each of the
three diagnostic parsers return its explicit not-found error: no
TOTAL-prefixed trimmed line for the meminfo scan, no line containing
both physical and footprint for the iOS memory scan, and no row with at
least three fields led by the pid for the iOS ps scan. Each parser is a
total function, so no input can make it crash, and the error value is
distinct from any successful zero result. -/
theorem c8_not_found_errors :
    (∀ out, (∀ l ∈ splitLines out, Android.isTotalLine (goTrimSpace l) = false) →
        Android.parseMeminfoForMB out =
          .error (goStr "unable to locate TOTAL memory usage in dumpsys output")) ∧
    (∀ out, (∀ l ∈ splitLines out,
          ¬(goContains (goToLower (goTrimSpace l)) (goStr "physical") = true ∧
            goContains (goToLower (goTrimSpace l)) (goStr "footprint") = true)) →
        IOS.parseIOSMemoryOutput out = .error (goStr "physical footprint not found")) ∧
    (∀ out pid, (∀ l ∈ splitLines out,
          (goFields (goTrimSpace l)).length < 3 ∨
          (goFields (goTrimSpace l)).headD [] ≠ pid) →
        IOS.parseIOSPSMetrics out pid =
          .error (goStr "cpu metrics not found in ps output")) := by
  refine ⟨?_, ?_, ?_⟩
  · intro out h
    unfold Android.parseMeminfoForMB
    exact parseMeminfoLines_all_miss _ h
  · intro out h
    have hnone : firstSome IOS.iosMemoryLine (splitLines out) = none := by
      apply firstSome_eq_none
      intro l hl
      unfold IOS.iosMemoryLine
      by_cases ht : goTrimSpace l = []
      · simp [ht]
      · simp [ht, h l hl]
    unfold IOS.parseIOSMemoryOutput
    rw [hnone]
  · intro out pid h
    unfold IOS.parseIOSPSMetrics
    exact psMetricsLines_all_miss pid _ h false

/-- Witness for claim C8 on concrete inputs without the expected
markers. -/
theorem c8_not_found_errors_witness :
    Android.parseMeminfoForMB (goStr "no markers here") =
      .error (goStr "unable to locate TOTAL memory usage in dumpsys output") ∧
    IOS.parseIOSMemoryOutput (goStr "no markers here") =
      .error (goStr "physical footprint not found") ∧
    IOS.parseIOSPSMetrics (goStr "PID %CPU TIME") (goStr "4242") =
      .error (goStr "cpu metrics not found in ps output") :=
  ⟨c8_not_found_errors.1 _ (by decide),
   c8_not_found_errors.2.1 _ (by decide),
   c8_not_found_errors.2.2 _ _ (by decide)⟩

theorem launchStep_untouched (m : AndroidMetrics) (l : GoStr) :
    (Android.launchStep m l).memoryMB = m.memoryMB ∧
    (Android.launchStep m l).cpuPercent = m.cpuPercent ∧
    (Android.launchStep m l).cpuTimeMs = m.cpuTimeMs := by
  unfold Android.launchStep
  by_cases ht : goTrimSpace l = []
  · simp [ht]
  · simp only [ht, if_false]
    cases hsp : splitFirst ':' (goTrimSpace l) with
    | none => simp
    | some kv =>
      obtain ⟨k, v⟩ := kv
      by_cases h1 : goTrimSpace k = goStr "ThisTime"
      · cases hq : parseGoFloat (goTrimSpace v) <;> simp [h1, hq]
      · by_cases h2 : goTrimSpace k = goStr "TotalTime"
        · cases hq : parseGoFloat (goTrimSpace v) <;> simp +decide [h1, h2, hq]
        · by_cases h3 : goTrimSpace k = goStr "WaitTime"
          · cases hq : parseGoFloat (goTrimSpace v) <;> simp +decide [h1, h2, h3, hq]
          · by_cases h4 : goTrimSpace k = goStr "LaunchState"
            · simp +decide [h1, h2, h3, h4]
            · simp [h1, h2, h3, h4]

theorem foldl_launchStep_untouched (ls : List GoStr) (m : AndroidMetrics) :
    (ls.foldl Android.launchStep m).memoryMB = m.memoryMB ∧
    (ls.foldl Android.launchStep m).cpuPercent = m.cpuPercent ∧
    (ls.foldl Android.launchStep m).cpuTimeMs = m.cpuTimeMs := by
  induction ls generalizing m with
  | nil => exact ⟨rfl, rfl, rfl⟩
  | cons l rest ih =>
    simp only [List.foldl_cons]
    obtain ⟨h1, h2, h3⟩ := ih (Android.launchStep m l)
    obtain ⟨g1, g2, g3⟩ := launchStep_untouched m l
    exact ⟨h1.trans g1, h2.trans g2, h3.trans g3⟩

theorem parseLaunchOutput_zero (out : GoStr) :
    (Android.parseLaunchOutput out).memoryMB = 0 ∧
    (Android.parseLaunchOutput out).cpuPercent = 0 ∧
    (Android.parseLaunchOutput out).cpuTimeMs = 0 := by
  unfold Android.parseLaunchOutput
  exact foldl_launchStep_untouched _ {}

theorem collectMemoryUsage_error (p e : GoStr) (hp : p ≠ []) :
    Android.collectMemoryUsage p (.error e) = .error (goStr "dumpsys meminfo: " ++ e) := by
  simp [Android.collectMemoryUsage, hp]

theorem collectCPUMetrics_pid_error (p e2 e3 : GoStr)
    (topOut cpuinfoOut procStatOut : Except GoStr GoStr) :
    Android.collectCPUMetrics p (.error e2) (.error e3) topOut cpuinfoOut procStatOut =
      .error (goStr "pid lookup failed: " ++ e2 ++ goStr "; " ++ e3) := by
  simp [Android.collectCPUMetrics, Android.resolveAndroidPID]

theorem ios_collectMemoryUsage_error (b e : GoStr) (hb : b ≠ []) :
    IOS.collectMemoryUsage b (.error e) = .error (goStr "memory_usage: " ++ e) := by
  simp [IOS.collectMemoryUsage, hb]

theorem ios_collectCPU_launchctl_error (b e : GoStr) (psOut : Except GoStr GoStr) :
    IOS.collectIOSCPUMetrics b (.error e) psOut =
      .error (goStr "launchctl list: " ++ e) := by
  simp [IOS.collectIOSCPUMetrics, IOS.resolveIOSPID]

/-- Claim C4: once the launch command has succeeded, a failing optional
memory or CPU collection never makes Run return an error: the run still
returns a metrics record, the memory field or the two CPU fields stay
at their unset zero value, and every other field is unaffected, on both
the Android and the iOS pipeline. -/
theorem c4_optional_diagnostics :
    (∀ (cfg : Android.Config) (env : Android.Env) (out e1 e2 e3 : GoStr),
        cfg.package ≠ [] → cfg.activity ≠ [] → env.launchOut = .ok out →
        ∃ m, Android.Run cfg env = .ok m ∧
          Android.Run cfg { env with meminfoOut := .error e1 } =
            .ok { m with memoryMB := 0 } ∧
          Android.Run cfg { env with pidofOut := .error e2, psOut := .error e3 } =
            .ok { m with cpuPercent := 0, cpuTimeMs := 0 }) ∧
    (∀ (cfg : IOS.Config) (env : IOS.Env) (out e1 e2 : GoStr) (meta : Option DeviceMetadata),
        cfg.bundleID ≠ [] →
        IOS.resolveDeviceMetadata (IOS.listSimctlDevices env.listPayload) cfg.deviceID =
          .ok meta →
        (meta.map DeviceMetadata.id).getD [] ≠ [] →
        env.launchOut = .ok out →
        ∃ m, IOS.Run cfg env = .ok m ∧
          IOS.Run cfg { env with memOut := .error e1 } = .ok { m with memoryMB := 0 } ∧
          IOS.Run cfg { env with launchctlOut := .error e2 } =
            .ok { m with cpuPercent := 0, cpuTimeMs := 0 }) := by
  constructor
  · intro cfg env out e1 e2 e3 hp ha hl
    obtain ⟨hm0, hc0, ht0⟩ := parseLaunchOutput_zero out
    simp only [Android.Run, hp, ha, hl, if_neg, ite_false, if_false,
      collectMemoryUsage_error cfg.package e1 hp,
      collectCPUMetrics_pid_error cfg.package e2 e3]
    refine ⟨_, rfl, ?_, ?_⟩
    · cases hmem : Android.collectMemoryUsage cfg.package env.meminfoOut with
      | ok v =>
        cases hcpu : Android.collectCPUMetrics cfg.package env.pidofOut env.psOut
            env.topOut env.cpuinfoOut env.procStatOut with
        | ok pt => congr 1; ext <;> simp [hm0]
        | error err => congr 1; ext <;> simp [hm0]
      | error err =>
        cases hcpu : Android.collectCPUMetrics cfg.package env.pidofOut env.psOut
            env.topOut env.cpuinfoOut env.procStatOut with
        | ok pt => congr 1; ext <;> simp [hm0]
        | error err2 => congr 1; ext <;> simp [hm0]
    · cases hmem : Android.collectMemoryUsage cfg.package env.meminfoOut with
      | ok v =>
        cases hcpu : Android.collectCPUMetrics cfg.package env.pidofOut env.psOut
            env.topOut env.cpuinfoOut env.procStatOut with
        | ok pt => congr 1; ext <;> simp [hc0, ht0]
        | error err => congr 1; ext <;> simp [hc0, ht0]
      | error err =>
        cases hcpu : Android.collectCPUMetrics cfg.package env.pidofOut env.psOut
            env.topOut env.cpuinfoOut env.procStatOut with
        | ok pt => congr 1; ext <;> simp [hc0, ht0]
        | error err2 => congr 1; ext <;> simp [hc0, ht0]
  · intro cfg env out e1 e2 meta hb hres hid hl
    simp only [IOS.Run, hb, hres, hl, if_neg, ite_false, if_false,
      ios_collectMemoryUsage_error cfg.bundleID e1 hb,
      ios_collectCPU_launchctl_error cfg.bundleID e2]
    simp only [if_neg hid]
    refine ⟨_, rfl, ?_, ?_⟩
    · cases hmem : IOS.collectMemoryUsage cfg.bundleID env.memOut with
      | ok v =>
        cases hcpu : IOS.collectIOSCPUMetrics cfg.bundleID env.launchctlOut env.psOut with
        | ok pt => congr 1
        | error err => congr 1
      | error err =>
        cases hcpu : IOS.collectIOSCPUMetrics cfg.bundleID env.launchctlOut env.psOut with
        | ok pt => congr 1
        | error err2 => congr 1
    · cases hmem : IOS.collectMemoryUsage cfg.bundleID env.memOut with
      | ok v =>
        cases hcpu : IOS.collectIOSCPUMetrics cfg.bundleID env.launchctlOut env.psOut with
        | ok pt => congr 1
        | error err => congr 1
      | error err =>
        cases hcpu : IOS.collectIOSCPUMetrics cfg.bundleID env.launchctlOut env.psOut with
        | ok pt => congr 1
        | error err2 => congr 1

/-- Witness for claim C4 with concrete configurations and captured
outputs whose optional probes fail. -/
theorem c4_optional_diagnostics_witness :
    (∃ m, Android.Run androidFixtureCfg androidFixtureEnv = .ok m ∧
      Android.Run androidFixtureCfg
          { androidFixtureEnv with meminfoOut := .error (goStr "io") } =
        .ok { m with memoryMB := 0 } ∧
      Android.Run androidFixtureCfg
          { androidFixtureEnv with
              pidofOut := .error (goStr "io"), psOut := .error (goStr "io") } =
        .ok { m with cpuPercent := 0, cpuTimeMs := 0 }) ∧
    (∃ m, IOS.Run iosFixtureCfg iosFixtureEnv = .ok m ∧
      IOS.Run iosFixtureCfg { iosFixtureEnv with memOut := .error (goStr "io") } =
        .ok { m with memoryMB := 0 } ∧
      IOS.Run iosFixtureCfg { iosFixtureEnv with launchctlOut := .error (goStr "io") } =
        .ok { m with cpuPercent := 0, cpuTimeMs := 0 }) :=
  ⟨c4_optional_diagnostics.1 androidFixtureCfg androidFixtureEnv (goStr "ThisTime: 8")
      (goStr "io") (goStr "io") (goStr "io") (by decide) (by decide) rfl,
   c4_optional_diagnostics.2 iosFixtureCfg iosFixtureEnv [] (goStr "io") (goStr "io")
      (some { id := goStr "UDID-1", platform := goStr "ios" }) (by decide) rfl (by decide) rfl⟩

theorem jlookup_cons_pair (k k2 : GoStr) (j : Report.Json) (rest : List (GoStr × Report.Json)) :
    Report.jlookup ((k, j) :: rest) k2 = if k = k2 then some j else Report.jlookup rest k2 := rfl

theorem jlookup_optStr_self (k v : GoStr) (rest : List (GoStr × Report.Json)) :
    Report.jlookup (Report.optStr k v ++ rest) k =
      if v = [] then Report.jlookup rest k else some (.str v) := by
  by_cases h : v = [] <;> simp [Report.optStr, Report.jlookup, h]

theorem jlookup_optStr_ne (k k2 v : GoStr) (rest : List (GoStr × Report.Json)) (h : k ≠ k2) :
    Report.jlookup (Report.optStr k v ++ rest) k2 = Report.jlookup rest k2 := by
  by_cases hv : v = [] <;> simp [Report.optStr, Report.jlookup, hv, h]

theorem jlookup_optStr_self_last (k v : GoStr) :
    Report.jlookup (Report.optStr k v) k = if v = [] then none else some (.str v) := by
  by_cases h : v = [] <;> simp [Report.optStr, Report.jlookup, h]

theorem jlookup_optStr_ne_last (k k2 v : GoStr) (h : k ≠ k2) :
    Report.jlookup (Report.optStr k v) k2 = none := by
  by_cases hv : v = [] <;> simp [Report.optStr, Report.jlookup, hv, h]

theorem jlookup_optNum_self (k : GoStr) (v : ℚ) (rest : List (GoStr × Report.Json)) :
    Report.jlookup (Report.optNum k v ++ rest) k =
      if v = 0 then Report.jlookup rest k else some (.num v) := by
  by_cases h : v = 0 <;> simp [Report.optNum, Report.jlookup, h]

theorem jlookup_optNum_ne (k k2 : GoStr) (v : ℚ) (rest : List (GoStr × Report.Json))
    (h : k ≠ k2) :
    Report.jlookup (Report.optNum k v ++ rest) k2 = Report.jlookup rest k2 := by
  by_cases hv : v = 0 <;> simp [Report.optNum, Report.jlookup, hv, h]

theorem jlookup_optArr_self (k : GoStr) (v : List GoStr) (rest : List (GoStr × Report.Json)) :
    Report.jlookup (Report.optArr k v ++ rest) k =
      if v = [] then Report.jlookup rest k else some (.arr (v.map Report.Json.str)) := by
  by_cases h : v = [] <;> simp [Report.optArr, Report.jlookup, h]

theorem jlookup_optArr_ne (k k2 : GoStr) (v : List GoStr) (rest : List (GoStr × Report.Json))
    (h : k ≠ k2) :
    Report.jlookup (Report.optArr k v ++ rest) k2 = Report.jlookup rest k2 := by
  by_cases hv : v = [] <;> simp [Report.optArr, Report.jlookup, hv, h]

theorem jlookup_optObj_self {α : Type} (k : GoStr) (f : α → Report.Json) (o : Option α)
    (rest : List (GoStr × Report.Json)) :
    Report.jlookup (Report.optObj k f o ++ rest) k =
      match o with
      | some a => some (f a)
      | none => Report.jlookup rest k := by
  cases o <;> simp [Report.optObj, Report.jlookup]

theorem jlookup_optObj_ne {α : Type} (k k2 : GoStr) (f : α → Report.Json) (o : Option α)
    (rest : List (GoStr × Report.Json)) (h : k ≠ k2) :
    Report.jlookup (Report.optObj k f o ++ rest) k2 = Report.jlookup rest k2 := by
  cases o <;> simp [Report.optObj, Report.jlookup, h]

theorem decDevice_encDevice (d : DeviceMetadata) :
    Report.decDevice (Report.encDevice d) = some d := by
  simp only [Report.encDevice, Report.decDevice, Option.some.injEq]
  refine DeviceMetadata.ext ?_ ?_ ?_ ?_ ?_ <;>
    simp +decide [Report.getStr, Report.encDeviceFields, jlookup_optStr_self, jlookup_optStr_ne,
      jlookup_optStr_self_last, jlookup_optStr_ne_last] <;>
    split <;> simp_all

theorem decAndroid_encAndroid (m : AndroidMetrics) :
    Report.decAndroid (Report.encAndroid m) = some m := by
  simp only [Report.encAndroid, Report.decAndroid, Option.some.injEq]
  refine AndroidMetrics.ext ?_ ?_ ?_ ?_ ?_ ?_ ?_ ?_ ?_ ?_ ?_ ?_ ?_ ?_ <;>
    simp +decide [Report.getStr, Report.getNum, Report.getTime, Report.encAndroidFields,
      jlookup_optStr_self, jlookup_optStr_ne, jlookup_optNum_self, jlookup_optNum_ne,
      jlookup_optObj_self, jlookup_optObj_ne, jlookup_optStr_self_last, jlookup_optStr_ne_last,
      Report.jlookup] <;>
    first
      | (split <;> simp_all [decDevice_encDevice])
      | (cases m.device <;> simp [decDevice_encDevice])
      | simp_all

theorem map_extract_str (xs : List GoStr) :
    List.map
      ((fun j => match j with | Report.Json.str s => s | _ => ([] : GoStr)) ∘ Report.Json.str)
      xs = xs := by
  induction xs <;> simp_all

theorem decIOS_encIOS (m : IOSMetrics) :
    Report.decIOS (Report.encIOS m) = some m := by
  have hargs : Report.getStrArr (Report.encIOSFields m) (goStr "launchArgs") = m.launchArgs := by
    simp +decide [Report.getStrArr, Report.encIOSFields, jlookup_optStr_ne, jlookup_optNum_ne,
      jlookup_optArr_self, jlookup_optObj_ne, jlookup_optStr_ne_last, Report.jlookup]
    by_cases h : m.launchArgs = []
    · simp [h]
    · simp [h, map_extract_str]
  simp only [Report.encIOS, Report.decIOS, Option.some.injEq]
  refine IOSMetrics.ext ?_ ?_ ?_ ?_ ?_ ?_ ?_ ?_ ?_ ?_ ?_ <;>
    simp only [hargs] <;>
    simp +decide [Report.getStr, Report.getNum, Report.getTime, Report.getStrArr,
      Report.encIOSFields, jlookup_optStr_self, jlookup_optStr_ne, jlookup_optNum_self,
      jlookup_optNum_ne, jlookup_optArr_self, jlookup_optArr_ne, jlookup_optObj_self,
      jlookup_optObj_ne, jlookup_optStr_self_last, jlookup_optStr_ne_last, Report.jlookup] <;>
    first
      | (split <;> simp_all [decDevice_encDevice, List.map_map, Function.comp])
      | (cases m.device <;> simp [decDevice_encDevice])
      | simp_all

/-- Claim C9: serializing a Result to its JSON object form and decoding
it back reproduces the record exactly: every string field, every exact
numeric field, the timestamp, and the presence or absence of the
android, ios and device sub-records all survive the round trip. -/
theorem c9_result_roundtrip (r : Result) :
    Report.decResult (Report.encResult r) = r := by
  simp only [Report.encResult, Report.decResult]
  refine Result.ext ?_ ?_ ?_ ?_ <;>
    simp +decide [Report.getStr, Report.encResultFields, jlookup_optStr_self, jlookup_optStr_ne,
      jlookup_optObj_self, jlookup_optObj_ne, jlookup_optStr_self_last, jlookup_optStr_ne_last,
      Report.jlookup] <;>
    first
      | (split <;> simp_all [decAndroid_encAndroid, decIOS_encIOS])
      | simp_all

end DesignBench
